import Mathlib

/-! Board-support layer: Xilinx IRQ pass-through driver and power bring-up.

A shallow embedding of `src/drivers/platform/xilinx/irq.c` and
`src/application/main.c`.

Modelling conventions.

* The C functions talk to the outside world (libc `calloc`/`free`, the Xilinx
  and ADI vendor libraries).  Every such call is recorded, in program order,
  in a list of calls returned next to the C return value; what the outside
  world answers is an input of the model.
* `#ifdef XSCUGIC_H` / `#ifdef XINTC_H` are build-time gates: the vendor header
  is either included (and then its functions exist) or it is not.  A gate is
  modelled by an `Option`: `some lib` when the header is compiled in, `none`
  when it is not.
* A non-null C pointer to a structure is modelled by `Ref`: the address
  together with the object stored there.  A nullable `void *` whose pointee
  is never inspected here is an `Option Ptr` (`none` is `NULL`).
* `uint32_t` identifiers are natural numbers; no arithmetic is done on them.
-/

namespace NoOS

/-! ## Data model -/

/-- An address. -/
abbrev Ptr := Nat

/-- A function pointer, identified by the address of the function. -/
abbrev Handler := Nat

/-- A non-null pointer together with the object it points to. -/
structure Ref (α : Type) where
  addr : Ptr
  obj : α

/-- The controller kind stored in `xil_irq_desc.type`.  The `switch`
statements of irq.c distinguish `IRQ_PS`, `IRQ_PL` and `default`; `other raw`
stands for any value of the enumeration that is neither enumerator. -/
inductive xil_irq_type where
  | IRQ_PS
  | IRQ_PL
  | other (raw : Nat)
  deriving DecidableEq

/-- The Xilinx specific part of a descriptor (`struct xil_irq_desc`): the
fields irq.c reads or writes. -/
structure xil_irq_desc where
  type : xil_irq_type
  instance_ptr : Option Ptr
  irq_handler : Nat → Option Handler
  context : Nat → Option Ptr

/-- The controller descriptor (`struct irq_ctrl_desc`): the fields irq.c reads
or writes (`irq_id` is read at irq.c:120). -/
structure irq_ctrl_desc where
  irq_ctrl_id : Nat
  irq_id : Nat
  extra : Ref xil_irq_desc

/-- The Xilinx specific initialisation parameter (`struct xil_irq_init_param`). -/
structure xil_irq_init_param where
  type : xil_irq_type

/-- The initialisation parameter (`struct irq_init_param`). -/
structure irq_init_param where
  irq_ctrl_id : Nat
  extra : xil_irq_init_param

/-- The configuration record `XScuGic_LookupConfig` returns; irq.c reads its
`CpuBaseAddress`. -/
structure XScuGic_Config where
  CpuBaseAddress : Nat
  deriving DecidableEq

/-- The `config` argument of `irq_register` (`struct xili_config`). -/
structure xili_config where
  instance_ptr : Option Ptr
  irq_specific_handler : Handler

/-- What `calloc` is asked to allocate (`sizeof` of which type). -/
inductive AllocObj where
  | irq_ctrl_desc
  | xil_irq_desc
  | XScuGic
  | XIntc
  deriving DecidableEq

/-- A call that leaves irq.c, with its arguments and, where the callee returns
one, the value it returned. -/
inductive Call where
  | calloc (nmemb : Nat) (size : AllocObj) (ret : Option Ptr)
  | free (p : Ptr)
  | Xil_ExceptionInit
  | Xil_ExceptionRegisterHandler (id : Nat) (handler : Handler) (data : Ptr)
  | XScuGic_LookupConfig (DeviceId : Nat) (ret : Option XScuGic_Config)
  | XScuGic_CfgInitialize (inst : Ptr) (config : XScuGic_Config) (addr : Nat) (ret : Int)
  | XScuGic_Enable (inst : Option Ptr) (irq_id : Nat)
  | XScuGic_Disable (inst : Option Ptr) (irq_id : Nat)
  | XScuGic_Connect (inst : Option Ptr) (irq_id : Nat) (handler : Handler) (ref : Option Ptr)
  | XScuGic_Disconnect (inst : Option Ptr) (irq_id : Nat)
  | XUartPs_SetHandler (inst : Option Ptr) (handler : Handler) (ref : Ptr)
  | XIntc_Initialize (inst : Ptr) (DeviceId : Nat) (ret : Int)
  | XIntc_Start (inst : Ptr) (mode : Nat) (ret : Int)
  | XIntc_Enable (inst : Option Ptr) (irq_id : Nat)
  | XIntc_Disable (inst : Option Ptr) (irq_id : Nat)
  | XIntc_Connect (inst : Option Ptr) (irq_id : Nat) (handler : Handler) (ref : Option Ptr)
      (ret : Int)
  | XIntc_Disconnect (inst : Option Ptr) (irq_id : Nat)
  deriving DecidableEq

/-- What including `xscugic.h` brings into the build: the answers of the
XScuGic functions whose result irq.c inspects, and the address of
`XScuGic_InterruptHandler`. -/
structure xscugic_h where
  XScuGic_LookupConfig : Nat → Option XScuGic_Config
  XScuGic_CfgInitialize : Ptr → XScuGic_Config → Nat → Int
  XScuGic_InterruptHandler : Handler

/-- What including `xintc.h` brings into the build: the answers of the XIntc
functions whose result irq.c inspects, and the constant `XIN_REAL_MODE`. -/
structure xintc_h where
  XIntc_Initialize : Ptr → Nat → Int
  XIntc_Start : Ptr → Nat → Int
  XIntc_Connect : Option Ptr → Nat → Handler → Option Ptr → Int
  XIN_REAL_MODE : Nat

/-- The build irq.c is compiled in.  `SUCCESS` and `FAILURE` come from
`error.h`, which is not among the sources, so their values are parameters;
so are the identifiers irq.c uses without declaring them (`UART_ID`,
`XUartPs_Handler`, `internal_uart_Handler`) and `XIL_EXCEPTION_ID_INT`.
`XSCUGIC_H` and `XINTC_H` are the two include gates. -/
structure Build where
  SUCCESS : Int
  FAILURE : Int
  XSCUGIC_H : Option xscugic_h
  XINTC_H : Option xintc_h
  XIL_EXCEPTION_ID_INT : Nat
  UART_ID : Nat
  XUartPs_Handler : Handler
  internal_uart_Handler : Handler

/-- The answers of the three `calloc` calls of `irq_ctrl_init`, `none` being
`NULL`: the descriptor, the Xilinx part, the vendor driver instance. -/
structure Allocator where
  descriptor : Option Ptr
  xil_dev : Option Ptr
  instance_ptr : Option Ptr

/-- Outcome of `irq_ctrl_init`: the value returned, the pointer stored through
`desc` (`none` when the function does not write `*desc`), the calls made. -/
structure InitResult where
  ret : Int
  desc : Option (Ref irq_ctrl_desc)
  calls : List Call

/-- Outcome of an operation on an existing descriptor: the value returned, the
descriptor as the function leaves it, the calls made. -/
structure OpResult where
  ret : Int
  desc : irq_ctrl_desc
  calls : List Call

/-! ## irq.c -/

/-- The `error:` label of `irq_ctrl_init` (irq.c:143-147), reached after
`calls`: both allocations are released and `FAILURE` is returned. -/
def irq_ctrl_init.error (B : Build) (descriptor xil_dev : Ptr) (calls : List Call) :
    InitResult :=
  { ret := B.FAILURE, desc := none,
    calls := calls ++ [Call.free xil_dev, Call.free descriptor] }

/-- The function `irq_ctrl_init` (irq.c:66-148). -/
def irq_ctrl_init (B : Build) (heap : Allocator) (param : irq_init_param) : InitResult :=
  match heap.descriptor with
  | none =>
    { ret := B.FAILURE, desc := none,
      calls := [Call.calloc 1 AllocObj.irq_ctrl_desc none] }
  | some descriptor =>
  match heap.xil_dev with
  | none =>
    { ret := B.FAILURE, desc := none,
      calls := [Call.calloc 1 AllocObj.irq_ctrl_desc (some descriptor),
                Call.calloc 1 AllocObj.xil_irq_desc none,
                Call.free descriptor] }
  | some xil_dev =>
  let entry : List Call :=
    [Call.calloc 1 AllocObj.irq_ctrl_desc (some descriptor),
     Call.calloc 1 AllocObj.xil_irq_desc (some xil_dev),
     Call.Xil_ExceptionInit]
  -- descriptor->irq_ctrl_id = param->irq_ctrl_id; the other fields are as
  -- calloc left them until they are assigned
  let irq_ctrl_id := param.irq_ctrl_id
  let irq_id := 0
  let type := param.extra.type
  let finish (inst : Ptr) : Ref irq_ctrl_desc :=
    { addr := descriptor,
      obj := { irq_ctrl_id := irq_ctrl_id, irq_id := irq_id,
               extra := { addr := xil_dev,
                          obj := { type := type, instance_ptr := some inst,
                                   irq_handler := fun _ => none,
                                   context := fun _ => none } } } }
  match type with
  | xil_irq_type.IRQ_PS =>
    match B.XSCUGIC_H with
    | none => irq_ctrl_init.error B descriptor xil_dev entry
    | some gic =>
      match heap.instance_ptr with
      | none =>
        irq_ctrl_init.error B descriptor xil_dev
          (entry ++ [Call.calloc 1 AllocObj.XScuGic none])
      | some inst =>
        let c1 := entry ++ [Call.calloc 1 AllocObj.XScuGic (some inst)]
        match gic.XScuGic_LookupConfig irq_ctrl_id with
        | none =>
          irq_ctrl_init.error B descriptor xil_dev
            (c1 ++ [Call.XScuGic_LookupConfig irq_ctrl_id none, Call.free inst])
        | some config =>
          let c2 := c1 ++ [Call.XScuGic_LookupConfig irq_ctrl_id (some config)]
          let status := gic.XScuGic_CfgInitialize inst config config.CpuBaseAddress
          let c3 := c2 ++ [Call.XScuGic_CfgInitialize inst config config.CpuBaseAddress status]
          if status ≠ B.SUCCESS then
            irq_ctrl_init.error B descriptor xil_dev (c3 ++ [Call.free inst])
          else
            { ret := B.SUCCESS, desc := some (finish inst),
              calls := c3 ++ [Call.Xil_ExceptionRegisterHandler B.XIL_EXCEPTION_ID_INT
                                gic.XScuGic_InterruptHandler inst] }
  | xil_irq_type.IRQ_PL =>
    match B.XINTC_H with
    | none => irq_ctrl_init.error B descriptor xil_dev entry
    | some intc =>
      match heap.instance_ptr with
      | none =>
        irq_ctrl_init.error B descriptor xil_dev
          (entry ++ [Call.calloc 1 AllocObj.XIntc none])
      | some inst =>
        let c1 := entry ++ [Call.calloc 1 AllocObj.XIntc (some inst)]
        let status := intc.XIntc_Initialize inst irq_id
        let c2 := c1 ++ [Call.XIntc_Initialize inst irq_id status]
        if status ≠ B.SUCCESS then
          irq_ctrl_init.error B descriptor xil_dev (c2 ++ [Call.free inst])
        else
          let status := intc.XIntc_Start inst intc.XIN_REAL_MODE
          let c3 := c2 ++ [Call.XIntc_Start inst intc.XIN_REAL_MODE status]
          if status ≠ B.SUCCESS then
            irq_ctrl_init.error B descriptor xil_dev (c3 ++ [Call.free inst])
          else
            { ret := B.SUCCESS, desc := some (finish inst), calls := c3 }
  | xil_irq_type.other _ => irq_ctrl_init.error B descriptor xil_dev entry

/-- The function `irq_source_enable` (irq.c:180-201). -/
def irq_source_enable (B : Build) (desc : irq_ctrl_desc) (irq_id : Nat) : OpResult :=
  let xil_dev := desc.extra.obj
  match xil_dev.type with
  | xil_irq_type.IRQ_PS =>
    { ret := B.SUCCESS, desc := desc,
      calls := match B.XSCUGIC_H with
        | some _ => [Call.XScuGic_Enable xil_dev.instance_ptr irq_id]
        | none => [] }
  | xil_irq_type.IRQ_PL =>
    { ret := B.SUCCESS, desc := desc,
      calls := match B.XINTC_H with
        | some _ => [Call.XIntc_Enable xil_dev.instance_ptr irq_id]
        | none => [] }
  | xil_irq_type.other _ => { ret := B.FAILURE, desc := desc, calls := [] }

/-- The function `irq_source_disable` (irq.c:209-230). -/
def irq_source_disable (B : Build) (desc : irq_ctrl_desc) (irq_id : Nat) : OpResult :=
  let xil_dev := desc.extra.obj
  match xil_dev.type with
  | xil_irq_type.IRQ_PS =>
    { ret := B.SUCCESS, desc := desc,
      calls := match B.XSCUGIC_H with
        | some _ => [Call.XScuGic_Disable xil_dev.instance_ptr irq_id]
        | none => [] }
  | xil_irq_type.IRQ_PL =>
    { ret := B.SUCCESS, desc := desc,
      calls := match B.XINTC_H with
        | some _ => [Call.XIntc_Disable xil_dev.instance_ptr irq_id]
        | none => [] }
  | xil_irq_type.other _ => { ret := B.FAILURE, desc := desc, calls := [] }

/-- The function `irq_register`: the prototype at irq.c:259-261 with the block
at irq.c:262-294 as its body.  `dev_instance`, which the `IRQ_PL` arm passes
on without the prototype declaring it, is a further argument. -/
def irq_register (B : Build) (desc : irq_ctrl_desc) (irq_id : Nat) (irq_handler : Handler)
    (context : Option Ptr) (config : xili_config) (dev_instance : Option Ptr) : OpResult :=
  let xil_dev := desc.extra.obj
  match xil_dev.type with
  | xil_irq_type.IRQ_PS =>
    match B.XSCUGIC_H with
    | some _ =>
      if irq_id = B.UART_ID then
        { ret := B.FAILURE,
          desc := { desc with
            extra := { desc.extra with
              obj := { xil_dev with
                irq_handler := Function.update xil_dev.irq_handler irq_id (some irq_handler),
                context := Function.update xil_dev.context irq_id context } } },
          calls :=
            [Call.XScuGic_Connect xil_dev.instance_ptr irq_id B.XUartPs_Handler
               config.instance_ptr,
             Call.XScuGic_Connect xil_dev.instance_ptr irq_id config.irq_specific_handler
               config.instance_ptr,
             Call.XUartPs_SetHandler config.instance_ptr B.internal_uart_Handler
               desc.extra.addr] }
      else
        { ret := B.FAILURE, desc := desc, calls := [] }
    | none => { ret := B.FAILURE, desc := desc, calls := [] }
  | xil_irq_type.IRQ_PL =>
    match B.XINTC_H with
    | some intc =>
      let status := intc.XIntc_Connect xil_dev.instance_ptr irq_id irq_handler dev_instance
      { ret := status, desc := desc,
        calls := [Call.XIntc_Connect xil_dev.instance_ptr irq_id irq_handler dev_instance
                    status] }
    | none => { ret := B.FAILURE, desc := desc, calls := [] }
  | xil_irq_type.other _ => { ret := B.FAILURE, desc := desc, calls := [] }

/-- The function `irq_unregister` (irq.c:302-323). -/
def irq_unregister (B : Build) (desc : irq_ctrl_desc) (irq_id : Nat) : OpResult :=
  let xil_dev := desc.extra.obj
  match xil_dev.type with
  | xil_irq_type.IRQ_PS =>
    { ret := B.SUCCESS, desc := desc,
      calls := match B.XSCUGIC_H with
        | some _ => [Call.XScuGic_Disconnect xil_dev.instance_ptr irq_id]
        | none => [] }
  | xil_irq_type.IRQ_PL =>
    { ret := B.SUCCESS, desc := desc,
      calls := match B.XINTC_H with
        | some _ => [Call.XIntc_Disconnect xil_dev.instance_ptr irq_id]
        | none => [] }
  | xil_irq_type.other _ => { ret := B.FAILURE, desc := desc, calls := [] }

/-- The descriptors the driver hands out in build `B`: the one `irq_ctrl_init`
stores through `desc`, and such a descriptor as `irq_register`,
`irq_source_enable`, `irq_source_disable` or `irq_unregister` leaves it. -/
inductive Issued (B : Build) : irq_ctrl_desc → Prop where
  | init (heap : Allocator) (param : irq_init_param) (d : Ref irq_ctrl_desc) :
      (irq_ctrl_init B heap param).desc = some d → Issued B d.obj
  | register (desc : irq_ctrl_desc) (irq_id : Nat) (irq_handler : Handler)
      (context : Option Ptr) (config : xili_config) (dev_instance : Option Ptr) :
      Issued B desc →
      Issued B (irq_register B desc irq_id irq_handler context config dev_instance).desc
  | source_enable (desc : irq_ctrl_desc) (irq_id : Nat) :
      Issued B desc → Issued B (irq_source_enable B desc irq_id).desc
  | source_disable (desc : irq_ctrl_desc) (irq_id : Nat) :
      Issued B desc → Issued B (irq_source_disable B desc irq_id).desc
  | unregister (desc : irq_ctrl_desc) (irq_id : Nat) :
      Issued B desc → Issued B (irq_unregister B desc irq_id).desc

/-! ## main.c -/

/-- The clock identifiers `initPower` passes to `adi_pwr_SetClockDivider`
(enumerators of the vendor type `ADI_CLOCK_ID`). -/
inductive ADI_CLOCK_ID where
  | ADI_CLOCK_HCLK
  | ADI_CLOCK_PCLK
  deriving DecidableEq

/-- The ADI power driver as main.c sees it (`drivers/pwr/adi_pwr.h` is a vendor
header): the constant `ADI_PWR_SUCCESS` and what the two driver functions
answer. -/
structure adi_pwr_h where
  ADI_PWR_SUCCESS : Int
  adi_pwr_Init : Int
  adi_pwr_SetClockDivider : ADI_CLOCK_ID → Nat → Int

/-- A call that leaves main.c, with its arguments and, where main.c inspects
it, the value returned. -/
inductive Event where
  | adi_initComponents
  | adi_pwr_Init (ret : Int)
  | adi_pwr_SetClockDivider (clock : ADI_CLOCK_ID) (div : Nat) (ret : Int)
  | printf (text : String)
  | exit (status : Int)
  | at_test
  deriving DecidableEq

/-- How a C function ends: it returns a value to its caller, or the program
ends inside it through `exit`. -/
inductive Outcome (α : Type) where
  | returned (value : α)
  | exited (status : Int)
  deriving DecidableEq

/-- A run of a function of main.c: how it ends and the calls it makes, in
program order.  The functions called are taken to return, `exit` excepted. -/
structure Run (α : Type) where
  outcome : Outcome α
  events : List Event

/-- The `error:` label of `initPower` (main.c:24-26), reached after `events`. -/
def initPower.error (events : List Event) : Run Unit :=
  { outcome := Outcome.exited 1,
    events := events ++ [Event.printf "ERROR INITIALIZING POWER\n", Event.exit 1] }

/-- The function `initPower` (main.c:12-27). -/
def initPower (P : adi_pwr_h) : Run Unit :=
  let r1 := P.adi_pwr_Init
  let e1 := [Event.adi_pwr_Init r1]
  if P.ADI_PWR_SUCCESS ≠ r1 then initPower.error e1
  else
    let r2 := P.adi_pwr_SetClockDivider ADI_CLOCK_ID.ADI_CLOCK_HCLK 1
    let e2 := e1 ++ [Event.adi_pwr_SetClockDivider ADI_CLOCK_ID.ADI_CLOCK_HCLK 1 r2]
    if P.ADI_PWR_SUCCESS ≠ r2 then initPower.error e2
    else
      let r3 := P.adi_pwr_SetClockDivider ADI_CLOCK_ID.ADI_CLOCK_PCLK 1
      let e3 := e2 ++ [Event.adi_pwr_SetClockDivider ADI_CLOCK_ID.ADI_CLOCK_PCLK 1 r3]
      if P.ADI_PWR_SUCCESS ≠ r3 then initPower.error e3
      else { outcome := Outcome.returned (), events := e3 }

/-- The function `main` (main.c:29-42). -/
def main (P : adi_pwr_h) : Run Int :=
  let e0 := [Event.adi_initComponents]
  let power := initPower P
  match power.outcome with
  | Outcome.exited status => { outcome := Outcome.exited status, events := e0 ++ power.events }
  | Outcome.returned _ =>
    { outcome := Outcome.returned 0, events := e0 ++ power.events ++ [Event.at_test] }

/-! ## Concrete builds and inputs -/

/-- A processor-system build: `xscugic.h` is included, `xintc.h` is not. -/
def ps_build : Build :=
  { SUCCESS := 0, FAILURE := -1,
    XSCUGIC_H := some
      { XScuGic_LookupConfig := fun id => if id = 0 then some { CpuBaseAddress := 4176478464 }
                                          else none,
        XScuGic_CfgInitialize := fun _ _ _ => 0,
        XScuGic_InterruptHandler := 4096 },
    XINTC_H := none,
    XIL_EXCEPTION_ID_INT := 5, UART_ID := 59,
    XUartPs_Handler := 8192, internal_uart_Handler := 12288 }

/-- A programmable-logic build: `xintc.h` is included, `xscugic.h` is not. -/
def pl_build : Build :=
  { SUCCESS := 0, FAILURE := -1,
    XSCUGIC_H := none,
    XINTC_H := some
      { XIntc_Initialize := fun _ _ => 0,
        XIntc_Start := fun _ _ => 0,
        XIntc_Connect := fun _ _ _ _ => 0,
        XIN_REAL_MODE := 1 },
    XIL_EXCEPTION_ID_INT := 5, UART_ID := 59,
    XUartPs_Handler := 8192, internal_uart_Handler := 12288 }

/-- A heap on which the three allocations succeed. -/
def heap_ok : Allocator :=
  { descriptor := some 1000, xil_dev := some 2000, instance_ptr := some 3000 }

/-- A descriptor of the given type, with a driver instance at address 3000
and no handler registered. -/
def sample_desc (type : xil_irq_type) : irq_ctrl_desc :=
  { irq_ctrl_id := 0, irq_id := 0,
    extra := { addr := 2000,
               obj := { type := type, instance_ptr := some 3000,
                        irq_handler := fun _ => none, context := fun _ => none } } }

/-- An initialisation parameter for controller `0` of the given type. -/
def sample_param (type : xil_irq_type) : irq_init_param :=
  { irq_ctrl_id := 0, extra := { type := type } }

/-- A `config` argument of `irq_register`: the UART instance at address 600
and its specific handler. -/
def uart_config : xili_config :=
  { instance_ptr := some 600, irq_specific_handler := 20480 }

/-- A power driver whose three calls succeed. -/
def power_ok : adi_pwr_h :=
  { ADI_PWR_SUCCESS := 0, adi_pwr_Init := 0, adi_pwr_SetClockDivider := fun _ _ => 0 }

/-- A power driver whose first call fails with code `1`. -/
def power_init_fails : adi_pwr_h :=
  { ADI_PWR_SUCCESS := 0, adi_pwr_Init := 1, adi_pwr_SetClockDivider := fun _ _ => 0 }

/-! ## Theorems: the per-interrupt operations of irq.c -/

/-- C3: `irq_source_enable`, `irq_source_disable` and `irq_unregister` each
return `SUCCESS` if and only if the type of the descriptor is `IRQ_PS` or
`IRQ_PL`, whatever `irq_id` is and whichever vendor headers the build includes;
for every other type each of them returns `FAILURE` and makes no call at
all. -/
theorem irq_source_ops_status (B : Build) (hB : B.SUCCESS ≠ B.FAILURE)
    (desc : irq_ctrl_desc) (irq_id : Nat) :
    ((irq_source_enable B desc irq_id).ret = B.SUCCESS ↔
        (desc.extra.obj.type = xil_irq_type.IRQ_PS ∨
         desc.extra.obj.type = xil_irq_type.IRQ_PL)) ∧
    ((irq_source_disable B desc irq_id).ret = B.SUCCESS ↔
        (desc.extra.obj.type = xil_irq_type.IRQ_PS ∨
         desc.extra.obj.type = xil_irq_type.IRQ_PL)) ∧
    ((irq_unregister B desc irq_id).ret = B.SUCCESS ↔
        (desc.extra.obj.type = xil_irq_type.IRQ_PS ∨
         desc.extra.obj.type = xil_irq_type.IRQ_PL)) ∧
    (desc.extra.obj.type ≠ xil_irq_type.IRQ_PS →
     desc.extra.obj.type ≠ xil_irq_type.IRQ_PL →
       ((irq_source_enable B desc irq_id).ret = B.FAILURE ∧
        (irq_source_enable B desc irq_id).calls = []) ∧
       ((irq_source_disable B desc irq_id).ret = B.FAILURE ∧
        (irq_source_disable B desc irq_id).calls = []) ∧
       ((irq_unregister B desc irq_id).ret = B.FAILURE ∧
        (irq_unregister B desc irq_id).calls = [])) := by
  have hB2 : B.FAILURE ≠ B.SUCCESS := fun h => hB h.symm
  unfold irq_source_enable irq_source_disable irq_unregister
  cases h : desc.extra.obj.type <;> simp [h, hB, hB2]

/-- Witness of C3 on the processor-system build, for a descriptor whose type
is neither `IRQ_PS` nor `IRQ_PL`. -/
theorem irq_source_ops_status_witness :
    ps_build.SUCCESS ≠ ps_build.FAILURE ∧
    (sample_desc (xil_irq_type.other 2)).extra.obj.type ≠ xil_irq_type.IRQ_PS ∧
    (sample_desc (xil_irq_type.other 2)).extra.obj.type ≠ xil_irq_type.IRQ_PL ∧
    (irq_source_enable ps_build (sample_desc (xil_irq_type.other 2)) 61).ret
      = ps_build.FAILURE ∧
    (irq_source_enable ps_build (sample_desc (xil_irq_type.other 2)) 61).calls = [] ∧
    ((irq_source_enable ps_build (sample_desc xil_irq_type.IRQ_PS) 61).ret
      = ps_build.SUCCESS ↔
        ((sample_desc xil_irq_type.IRQ_PS).extra.obj.type = xil_irq_type.IRQ_PS ∨
         (sample_desc xil_irq_type.IRQ_PS).extra.obj.type = xil_irq_type.IRQ_PL)) := by
  have hB : ps_build.SUCCESS ≠ ps_build.FAILURE := by decide
  have h1 : (sample_desc (xil_irq_type.other 2)).extra.obj.type ≠ xil_irq_type.IRQ_PS := by
    decide
  have h2 : (sample_desc (xil_irq_type.other 2)).extra.obj.type ≠ xil_irq_type.IRQ_PL := by
    decide
  have other := irq_source_ops_status ps_build hB (sample_desc (xil_irq_type.other 2)) 61
  have ps := irq_source_ops_status ps_build hB (sample_desc xil_irq_type.IRQ_PS) 61
  exact ⟨hB, h1, h2, (other.2.2.2 h1 h2).1.1, (other.2.2.2 h1 h2).1.2, ps.1⟩

/-- What the three operations call, build by build, on an arbitrary descriptor
value: with the header of the descriptor's controller compiled in they issue
the one vendor call, without it they issue none; the descriptor is left as it
was. -/
theorem irq_source_ops_calls_of_build (B : Build) (desc : irq_ctrl_desc) (irq_id : Nat) :
    (desc.extra.obj.type = xil_irq_type.IRQ_PS → B.XSCUGIC_H.isSome = true →
      (irq_source_enable B desc irq_id).calls
        = [Call.XScuGic_Enable desc.extra.obj.instance_ptr irq_id] ∧
      (irq_source_disable B desc irq_id).calls
        = [Call.XScuGic_Disable desc.extra.obj.instance_ptr irq_id] ∧
      (irq_unregister B desc irq_id).calls
        = [Call.XScuGic_Disconnect desc.extra.obj.instance_ptr irq_id]) ∧
    (desc.extra.obj.type = xil_irq_type.IRQ_PL → B.XINTC_H.isSome = true →
      (irq_source_enable B desc irq_id).calls
        = [Call.XIntc_Enable desc.extra.obj.instance_ptr irq_id] ∧
      (irq_source_disable B desc irq_id).calls
        = [Call.XIntc_Disable desc.extra.obj.instance_ptr irq_id] ∧
      (irq_unregister B desc irq_id).calls
        = [Call.XIntc_Disconnect desc.extra.obj.instance_ptr irq_id]) ∧
    (desc.extra.obj.type = xil_irq_type.IRQ_PS → B.XSCUGIC_H.isSome = false →
      (irq_source_enable B desc irq_id).calls = [] ∧
      (irq_source_disable B desc irq_id).calls = [] ∧
      (irq_unregister B desc irq_id).calls = []) ∧
    (desc.extra.obj.type = xil_irq_type.IRQ_PL → B.XINTC_H.isSome = false →
      (irq_source_enable B desc irq_id).calls = [] ∧
      (irq_source_disable B desc irq_id).calls = [] ∧
      (irq_unregister B desc irq_id).calls = []) ∧
    (irq_source_enable B desc irq_id).desc = desc ∧
    (irq_source_disable B desc irq_id).desc = desc ∧
    (irq_unregister B desc irq_id).desc = desc := by
  unfold irq_source_enable irq_source_disable irq_unregister
  cases h : desc.extra.obj.type <;> cases hg : B.XSCUGIC_H <;> cases hi : B.XINTC_H <;>
    simp [h, hg, hi]

/-- A descriptor that `irq_ctrl_init` stores through `desc` has a type whose
vendor header is compiled in: the `IRQ_PS` arm without `xscugic.h` and the
`IRQ_PL` arm without `xintc.h` only reach `error:`. -/
theorem irq_ctrl_init_desc_header (B : Build) (heap : Allocator) (param : irq_init_param)
    (d : Ref irq_ctrl_desc) (h : (irq_ctrl_init B heap param).desc = some d) :
    (d.obj.extra.obj.type = xil_irq_type.IRQ_PS → B.XSCUGIC_H.isSome = true) ∧
    (d.obj.extra.obj.type = xil_irq_type.IRQ_PL → B.XINTC_H.isSome = true) := by
  unfold irq_ctrl_init irq_ctrl_init.error at h
  rcases hd : heap.descriptor with _ | descriptor
  · simp [hd] at h
  rcases hx : heap.xil_dev with _ | xil_dev
  · simp [hd, hx] at h
  rcases ht : param.extra.type with _ | _ | raw
  · rcases hg : B.XSCUGIC_H with _ | gic
    · simp [hd, hx, ht, hg] at h
    rcases hi : heap.instance_ptr with _ | inst
    · simp [hd, hx, ht, hg, hi] at h
    rcases hl : gic.XScuGic_LookupConfig param.irq_ctrl_id with _ | config
    · simp [hd, hx, ht, hg, hi, hl] at h
    by_cases hs : gic.XScuGic_CfgInitialize inst config config.CpuBaseAddress = B.SUCCESS
    · simp [hd, hx, ht, hg, hi, hl, hs] at h
      subst h
      simp
    · simp [hd, hx, ht, hg, hi, hl, hs] at h
  · rcases hg : B.XINTC_H with _ | intc
    · simp [hd, hx, ht, hg] at h
    rcases hi : heap.instance_ptr with _ | inst
    · simp [hd, hx, ht, hg, hi] at h
    by_cases hs : intc.XIntc_Initialize inst 0 = B.SUCCESS
    · by_cases hs2 : intc.XIntc_Start inst intc.XIN_REAL_MODE = B.SUCCESS
      · simp [hd, hx, ht, hg, hi, hs, hs2] at h
        subst h
        simp
      · simp [hd, hx, ht, hg, hi, hs, hs2] at h
    · simp [hd, hx, ht, hg, hi, hs] at h
  · simp [hd, hx, ht] at h

/-- The function `irq_register` changes neither the type nor the instance nor
the controller id of the descriptor. -/
theorem irq_register_keeps_controller (B : Build) (desc : irq_ctrl_desc) (irq_id : Nat)
    (irq_handler : Handler) (context : Option Ptr) (config : xili_config)
    (dev_instance : Option Ptr) :
    (irq_register B desc irq_id irq_handler context config dev_instance).desc.extra.obj.type
      = desc.extra.obj.type ∧
    (irq_register B desc irq_id irq_handler context config
        dev_instance).desc.extra.obj.instance_ptr
      = desc.extra.obj.instance_ptr ∧
    (irq_register B desc irq_id irq_handler context config dev_instance).desc.irq_ctrl_id
      = desc.irq_ctrl_id := by
  unfold irq_register
  cases h : desc.extra.obj.type <;> cases hg : B.XSCUGIC_H <;> cases hi : B.XINTC_H <;>
    simp [h, hg, hi] <;> split <;> simp [h]

/-- Every descriptor the driver hands out has a type whose vendor header is
compiled in. -/
theorem Issued.header {B : Build} {desc : irq_ctrl_desc} (h : Issued B desc) :
    (desc.extra.obj.type = xil_irq_type.IRQ_PS → B.XSCUGIC_H.isSome = true) ∧
    (desc.extra.obj.type = xil_irq_type.IRQ_PL → B.XINTC_H.isSome = true) := by
  induction h with
  | init heap param d hd => exact irq_ctrl_init_desc_header B heap param d hd
  | register desc irq_id irq_handler context config dev_instance _ ih =>
    rw [(irq_register_keeps_controller B desc irq_id irq_handler context config
          dev_instance).1]
    exact ih
  | source_enable desc irq_id _ ih =>
    rw [(irq_source_ops_calls_of_build B desc irq_id).2.2.2.2.1]
    exact ih
  | source_disable desc irq_id _ ih =>
    rw [(irq_source_ops_calls_of_build B desc irq_id).2.2.2.2.2.1]
    exact ih
  | unregister desc irq_id _ ih =>
    rw [(irq_source_ops_calls_of_build B desc irq_id).2.2.2.2.2.2]
    exact ih

/-- C4: the IRQ abstraction is a pass-through.  For every descriptor of type
`IRQ_PS` that the driver hands out (stored by `irq_ctrl_init`, possibly passed
through `irq_register` and the other operations since) and every `irq_id`,
`irq_source_enable`, `irq_source_disable` and `irq_unregister` issue exactly
one vendor call, `XScuGic_Enable`, `XScuGic_Disable` and `XScuGic_Disconnect`
respectively, with the instance of the descriptor and the same `irq_id`; for
type `IRQ_PL` they issue exactly one call to `XIntc_Enable`, `XIntc_Disable`
and `XIntc_Disconnect` with the same arguments; in all cases the descriptor is
left unchanged.  This holds in every build. -/
theorem irq_source_ops_pass_through (B : Build) (desc : irq_ctrl_desc)
    (hdesc : Issued B desc) (irq_id : Nat) :
    (desc.extra.obj.type = xil_irq_type.IRQ_PS →
      (irq_source_enable B desc irq_id).calls
        = [Call.XScuGic_Enable desc.extra.obj.instance_ptr irq_id] ∧
      (irq_source_disable B desc irq_id).calls
        = [Call.XScuGic_Disable desc.extra.obj.instance_ptr irq_id] ∧
      (irq_unregister B desc irq_id).calls
        = [Call.XScuGic_Disconnect desc.extra.obj.instance_ptr irq_id]) ∧
    (desc.extra.obj.type = xil_irq_type.IRQ_PL →
      (irq_source_enable B desc irq_id).calls
        = [Call.XIntc_Enable desc.extra.obj.instance_ptr irq_id] ∧
      (irq_source_disable B desc irq_id).calls
        = [Call.XIntc_Disable desc.extra.obj.instance_ptr irq_id] ∧
      (irq_unregister B desc irq_id).calls
        = [Call.XIntc_Disconnect desc.extra.obj.instance_ptr irq_id]) ∧
    (irq_source_enable B desc irq_id).desc = desc ∧
    (irq_source_disable B desc irq_id).desc = desc ∧
    (irq_unregister B desc irq_id).desc = desc := by
  have gate := Issued.header hdesc
  have ops := irq_source_ops_calls_of_build B desc irq_id
  exact ⟨fun hps => ops.1 hps (gate.1 hps), fun hpl => ops.2.1 hpl (gate.2 hpl),
    ops.2.2.2.2⟩

/-- Witness of C4: the `IRQ_PS` descriptor that `irq_ctrl_init` stores on the
processor-system build, after a handler was registered on it, and the `IRQ_PL`
descriptor that `irq_ctrl_init` stores on the programmable-logic build. -/
theorem irq_source_ops_pass_through_witness :
    (irq_ctrl_init ps_build heap_ok (sample_param xil_irq_type.IRQ_PS)).desc
      = some { addr := 1000, obj := sample_desc xil_irq_type.IRQ_PS } ∧
    ((irq_source_enable ps_build
        (irq_register ps_build (sample_desc xil_irq_type.IRQ_PS) 59 16384 (some 500)
          uart_config none).desc 61).calls
        = [Call.XScuGic_Enable (some 3000) 61] ∧
     (irq_source_disable ps_build
        (irq_register ps_build (sample_desc xil_irq_type.IRQ_PS) 59 16384 (some 500)
          uart_config none).desc 61).calls
        = [Call.XScuGic_Disable (some 3000) 61] ∧
     (irq_unregister ps_build
        (irq_register ps_build (sample_desc xil_irq_type.IRQ_PS) 59 16384 (some 500)
          uart_config none).desc 61).calls
        = [Call.XScuGic_Disconnect (some 3000) 61]) ∧
    (irq_ctrl_init pl_build heap_ok (sample_param xil_irq_type.IRQ_PL)).desc
      = some { addr := 1000, obj := sample_desc xil_irq_type.IRQ_PL } ∧
    ((irq_source_enable pl_build (sample_desc xil_irq_type.IRQ_PL) 61).calls
        = [Call.XIntc_Enable (some 3000) 61] ∧
     (irq_source_disable pl_build (sample_desc xil_irq_type.IRQ_PL) 61).calls
        = [Call.XIntc_Disable (some 3000) 61] ∧
     (irq_unregister pl_build (sample_desc xil_irq_type.IRQ_PL) 61).calls
        = [Call.XIntc_Disconnect (some 3000) 61]) :=
  ⟨rfl,
   (irq_source_ops_pass_through ps_build _
      (Issued.register (sample_desc xil_irq_type.IRQ_PS) 59 16384 (some 500) uart_config none
        (Issued.init heap_ok (sample_param xil_irq_type.IRQ_PS)
          { addr := 1000, obj := sample_desc xil_irq_type.IRQ_PS } rfl)) 61).1 rfl,
   rfl,
   (irq_source_ops_pass_through pl_build _
      (Issued.init heap_ok (sample_param xil_irq_type.IRQ_PL)
        { addr := 1000, obj := sample_desc xil_irq_type.IRQ_PL } rfl) 61).2.1 rfl⟩

/-! ## Theorems: `irq_ctrl_init` -/

/-- C1: `irq_ctrl_init` returns `SUCCESS` exactly when the two descriptor
allocations and the instance allocation succeed and either the type is
`IRQ_PS`, `XScuGic_LookupConfig` returns a non-null configuration and
`XScuGic_CfgInitialize` returns `SUCCESS`, or the type is `IRQ_PL` and
`XIntc_Initialize` and `XIntc_Start` both return `SUCCESS`; in every other
case, any other type included, it returns `FAILURE`.  On `SUCCESS` the pointer
stored through `desc` is a descriptor whose `irq_ctrl_id` is that of `param`,
whose `extra` has the type given in `param->extra` and a non-null instance. -/
theorem irq_ctrl_init_status (B : Build) (hB : B.SUCCESS ≠ B.FAILURE)
    (heap : Allocator) (param : irq_init_param) :
    ((irq_ctrl_init B heap param).ret = B.SUCCESS ↔
      ∃ descriptor xil_dev inst,
        heap.descriptor = some descriptor ∧ heap.xil_dev = some xil_dev ∧
        heap.instance_ptr = some inst ∧
        ((param.extra.type = xil_irq_type.IRQ_PS ∧
            ∃ gic config, B.XSCUGIC_H = some gic ∧
              gic.XScuGic_LookupConfig param.irq_ctrl_id = some config ∧
              gic.XScuGic_CfgInitialize inst config config.CpuBaseAddress = B.SUCCESS) ∨
         (param.extra.type = xil_irq_type.IRQ_PL ∧
            ∃ intc, B.XINTC_H = some intc ∧
              intc.XIntc_Initialize inst 0 = B.SUCCESS ∧
              intc.XIntc_Start inst intc.XIN_REAL_MODE = B.SUCCESS))) ∧
    ((irq_ctrl_init B heap param).ret = B.SUCCESS ∨
     (irq_ctrl_init B heap param).ret = B.FAILURE) ∧
    (param.extra.type ≠ xil_irq_type.IRQ_PS → param.extra.type ≠ xil_irq_type.IRQ_PL →
      (irq_ctrl_init B heap param).ret = B.FAILURE) ∧
    ((irq_ctrl_init B heap param).ret = B.SUCCESS →
      ∃ d, (irq_ctrl_init B heap param).desc = some d ∧
        d.obj.irq_ctrl_id = param.irq_ctrl_id ∧
        d.obj.extra.obj.type = param.extra.type ∧
        d.obj.extra.obj.instance_ptr ≠ none) := by
  have hB2 : B.FAILURE ≠ B.SUCCESS := fun h => hB h.symm
  unfold irq_ctrl_init irq_ctrl_init.error
  rcases hd : heap.descriptor with _ | descriptor
  · simp [hB2]
  rcases hx : heap.xil_dev with _ | xil_dev
  · simp [hB2]
  rcases ht : param.extra.type with _ | _ | raw
  · rcases hg : B.XSCUGIC_H with _ | gic
    · simp [hB2]
    rcases hi : heap.instance_ptr with _ | inst
    · simp [hB2]
    rcases hl : gic.XScuGic_LookupConfig param.irq_ctrl_id with _ | config
    · simp [hB2, hl]
    by_cases hs : gic.XScuGic_CfgInitialize inst config config.CpuBaseAddress = B.SUCCESS
    · simp [hB2, hl, hs]
    · simp [hB2, hl, hs]
  · rcases hg : B.XINTC_H with _ | intc
    · simp [hB2]
    rcases hi : heap.instance_ptr with _ | inst
    · simp [hB2]
    by_cases hs : intc.XIntc_Initialize inst 0 = B.SUCCESS
    · by_cases hs2 : intc.XIntc_Start inst intc.XIN_REAL_MODE = B.SUCCESS
      · simp [hB2, hs, hs2]
      · simp [hB2, hs, hs2]
    · simp [hB2, hs]
  · simp [hB2]

/-- Witness of C1: on the processor-system build with a heap that serves the
three allocations, an `IRQ_PS` controller is initialised with `SUCCESS`, and a
controller of another type is refused with `FAILURE`. -/
theorem irq_ctrl_init_status_witness :
    ps_build.SUCCESS ≠ ps_build.FAILURE ∧
    (irq_ctrl_init ps_build heap_ok (sample_param xil_irq_type.IRQ_PS)).ret
      = ps_build.SUCCESS ∧
    (∃ d, (irq_ctrl_init ps_build heap_ok (sample_param xil_irq_type.IRQ_PS)).desc = some d ∧
        d.obj.irq_ctrl_id = (sample_param xil_irq_type.IRQ_PS).irq_ctrl_id ∧
        d.obj.extra.obj.type = (sample_param xil_irq_type.IRQ_PS).extra.type ∧
        d.obj.extra.obj.instance_ptr ≠ none) ∧
    (irq_ctrl_init ps_build heap_ok (sample_param (xil_irq_type.other 2))).ret
      = ps_build.FAILURE := by
  have hB : ps_build.SUCCESS ≠ ps_build.FAILURE := by decide
  have ps := irq_ctrl_init_status ps_build hB heap_ok (sample_param xil_irq_type.IRQ_PS)
  have other := irq_ctrl_init_status ps_build hB heap_ok (sample_param (xil_irq_type.other 2))
  have hret : (irq_ctrl_init ps_build heap_ok (sample_param xil_irq_type.IRQ_PS)).ret
      = ps_build.SUCCESS :=
    ps.1.mpr ⟨1000, 2000, 3000, rfl, rfl, rfl,
      Or.inl ⟨rfl, _, ⟨4176478464⟩, rfl, rfl, rfl⟩⟩
  exact ⟨hB, hret, ps.2.2.2 hret, other.2.2.1 (by decide) (by decide)⟩

/-! ## Theorems: `irq_register` -/

/-- C2 (divergence): on a build that includes `xscugic.h`, registering a handler
for `UART_ID` on an `IRQ_PS` descriptor makes both `XScuGic_Connect` calls and
stores the handler and the context for `irq_id`, and yet the value returned is
`FAILURE`, not `SUCCESS`. -/
theorem irq_register_ps_connected_returns_FAILURE :
    (irq_register ps_build (sample_desc xil_irq_type.IRQ_PS) ps_build.UART_ID 16384
        (some 500) uart_config none).calls
      = [Call.XScuGic_Connect (some 3000) 59 ps_build.XUartPs_Handler (some 600),
         Call.XScuGic_Connect (some 3000) 59 uart_config.irq_specific_handler (some 600),
         Call.XUartPs_SetHandler (some 600) ps_build.internal_uart_Handler 2000] ∧
    (irq_register ps_build (sample_desc xil_irq_type.IRQ_PS) ps_build.UART_ID 16384
        (some 500) uart_config none).desc.extra.obj.irq_handler ps_build.UART_ID
      = some 16384 ∧
    (irq_register ps_build (sample_desc xil_irq_type.IRQ_PS) ps_build.UART_ID 16384
        (some 500) uart_config none).desc.extra.obj.context ps_build.UART_ID
      = some 500 ∧
    (irq_register ps_build (sample_desc xil_irq_type.IRQ_PS) ps_build.UART_ID 16384
        (some 500) uart_config none).ret = ps_build.FAILURE ∧
    (irq_register ps_build (sample_desc xil_irq_type.IRQ_PS) ps_build.UART_ID 16384
        (some 500) uart_config none).ret ≠ ps_build.SUCCESS := by
  refine ⟨rfl, ?_, ?_, rfl, ?_⟩
  · simp [irq_register, sample_desc, ps_build]
  · simp [irq_register, sample_desc, ps_build]
  · simp [irq_register, sample_desc, ps_build]

/-! ## Theorems: main.c -/

/-- C5 as stated fails: power initialisation is not the first thing that runs.
When the three power calls succeed, `main` calls `adi_initComponents`, then the
three power functions, then `at_test`; its first call is not a power call. -/
theorem main_calls_adi_initComponents_first :
    (main power_ok).events
      = [Event.adi_initComponents,
         Event.adi_pwr_Init 0,
         Event.adi_pwr_SetClockDivider ADI_CLOCK_ID.ADI_CLOCK_HCLK 1 0,
         Event.adi_pwr_SetClockDivider ADI_CLOCK_ID.ADI_CLOCK_PCLK 1 0,
         Event.at_test] ∧
    (main power_ok).events.head? ≠ some (Event.adi_pwr_Init power_ok.adi_pwr_Init) := by
  constructor
  · rfl
  · decide

/-- C5, amended: `main` first calls `adi_initComponents` and then initialises
the clock/power peripherals before `at_test` runs.  `initPower` calls, in this
order, `adi_pwr_Init`, `adi_pwr_SetClockDivider(ADI_CLOCK_HCLK, 1)` and
`adi_pwr_SetClockDivider(ADI_CLOCK_PCLK, 1)`; it returns normally if and only
if all three return `ADI_PWR_SUCCESS`; at the first call that does not, no
later power call is made, "ERROR INITIALIZING POWER" is printed and the
program exits with status 1.  Consequently `main` calls `at_test` and returns
0 only when all three power calls succeeded (and, the functions it calls
returning, whenever they did), and `at_test` is never run after a
power-initialisation failure. -/
theorem initPower_gates_at_test (P : adi_pwr_h) :
    (P.adi_pwr_Init = P.ADI_PWR_SUCCESS →
     P.adi_pwr_SetClockDivider ADI_CLOCK_ID.ADI_CLOCK_HCLK 1 = P.ADI_PWR_SUCCESS →
     P.adi_pwr_SetClockDivider ADI_CLOCK_ID.ADI_CLOCK_PCLK 1 = P.ADI_PWR_SUCCESS →
       initPower P =
         { outcome := Outcome.returned (),
           events := [Event.adi_pwr_Init P.ADI_PWR_SUCCESS,
             Event.adi_pwr_SetClockDivider ADI_CLOCK_ID.ADI_CLOCK_HCLK 1 P.ADI_PWR_SUCCESS,
             Event.adi_pwr_SetClockDivider ADI_CLOCK_ID.ADI_CLOCK_PCLK 1 P.ADI_PWR_SUCCESS] } ∧
       main P =
         { outcome := Outcome.returned 0,
           events := [Event.adi_initComponents,
             Event.adi_pwr_Init P.ADI_PWR_SUCCESS,
             Event.adi_pwr_SetClockDivider ADI_CLOCK_ID.ADI_CLOCK_HCLK 1 P.ADI_PWR_SUCCESS,
             Event.adi_pwr_SetClockDivider ADI_CLOCK_ID.ADI_CLOCK_PCLK 1 P.ADI_PWR_SUCCESS,
             Event.at_test] }) ∧
    (P.adi_pwr_Init ≠ P.ADI_PWR_SUCCESS →
       initPower P =
         { outcome := Outcome.exited 1,
           events := [Event.adi_pwr_Init P.adi_pwr_Init,
             Event.printf "ERROR INITIALIZING POWER\n", Event.exit 1] } ∧
       main P =
         { outcome := Outcome.exited 1,
           events := [Event.adi_initComponents,
             Event.adi_pwr_Init P.adi_pwr_Init,
             Event.printf "ERROR INITIALIZING POWER\n", Event.exit 1] }) ∧
    (P.adi_pwr_Init = P.ADI_PWR_SUCCESS →
     P.adi_pwr_SetClockDivider ADI_CLOCK_ID.ADI_CLOCK_HCLK 1 ≠ P.ADI_PWR_SUCCESS →
       initPower P =
         { outcome := Outcome.exited 1,
           events := [Event.adi_pwr_Init P.ADI_PWR_SUCCESS,
             Event.adi_pwr_SetClockDivider ADI_CLOCK_ID.ADI_CLOCK_HCLK 1
               (P.adi_pwr_SetClockDivider ADI_CLOCK_ID.ADI_CLOCK_HCLK 1),
             Event.printf "ERROR INITIALIZING POWER\n", Event.exit 1] } ∧
       main P =
         { outcome := Outcome.exited 1,
           events := [Event.adi_initComponents,
             Event.adi_pwr_Init P.ADI_PWR_SUCCESS,
             Event.adi_pwr_SetClockDivider ADI_CLOCK_ID.ADI_CLOCK_HCLK 1
               (P.adi_pwr_SetClockDivider ADI_CLOCK_ID.ADI_CLOCK_HCLK 1),
             Event.printf "ERROR INITIALIZING POWER\n", Event.exit 1] }) ∧
    (P.adi_pwr_Init = P.ADI_PWR_SUCCESS →
     P.adi_pwr_SetClockDivider ADI_CLOCK_ID.ADI_CLOCK_HCLK 1 = P.ADI_PWR_SUCCESS →
     P.adi_pwr_SetClockDivider ADI_CLOCK_ID.ADI_CLOCK_PCLK 1 ≠ P.ADI_PWR_SUCCESS →
       initPower P =
         { outcome := Outcome.exited 1,
           events := [Event.adi_pwr_Init P.ADI_PWR_SUCCESS,
             Event.adi_pwr_SetClockDivider ADI_CLOCK_ID.ADI_CLOCK_HCLK 1 P.ADI_PWR_SUCCESS,
             Event.adi_pwr_SetClockDivider ADI_CLOCK_ID.ADI_CLOCK_PCLK 1
               (P.adi_pwr_SetClockDivider ADI_CLOCK_ID.ADI_CLOCK_PCLK 1),
             Event.printf "ERROR INITIALIZING POWER\n", Event.exit 1] } ∧
       main P =
         { outcome := Outcome.exited 1,
           events := [Event.adi_initComponents,
             Event.adi_pwr_Init P.ADI_PWR_SUCCESS,
             Event.adi_pwr_SetClockDivider ADI_CLOCK_ID.ADI_CLOCK_HCLK 1 P.ADI_PWR_SUCCESS,
             Event.adi_pwr_SetClockDivider ADI_CLOCK_ID.ADI_CLOCK_PCLK 1
               (P.adi_pwr_SetClockDivider ADI_CLOCK_ID.ADI_CLOCK_PCLK 1),
             Event.printf "ERROR INITIALIZING POWER\n", Event.exit 1] }) ∧
    ((initPower P).outcome = Outcome.returned () ↔
       (P.adi_pwr_Init = P.ADI_PWR_SUCCESS ∧
        P.adi_pwr_SetClockDivider ADI_CLOCK_ID.ADI_CLOCK_HCLK 1 = P.ADI_PWR_SUCCESS ∧
        P.adi_pwr_SetClockDivider ADI_CLOCK_ID.ADI_CLOCK_PCLK 1 = P.ADI_PWR_SUCCESS)) ∧
    ((main P).outcome = Outcome.returned 0 ↔
       (P.adi_pwr_Init = P.ADI_PWR_SUCCESS ∧
        P.adi_pwr_SetClockDivider ADI_CLOCK_ID.ADI_CLOCK_HCLK 1 = P.ADI_PWR_SUCCESS ∧
        P.adi_pwr_SetClockDivider ADI_CLOCK_ID.ADI_CLOCK_PCLK 1 = P.ADI_PWR_SUCCESS)) ∧
    (Event.at_test ∈ (main P).events ↔
       (P.adi_pwr_Init = P.ADI_PWR_SUCCESS ∧
        P.adi_pwr_SetClockDivider ADI_CLOCK_ID.ADI_CLOCK_HCLK 1 = P.ADI_PWR_SUCCESS ∧
        P.adi_pwr_SetClockDivider ADI_CLOCK_ID.ADI_CLOCK_PCLK 1 = P.ADI_PWR_SUCCESS)) := by
  unfold main initPower initPower.error
  by_cases h1 : P.adi_pwr_Init = P.ADI_PWR_SUCCESS
  · by_cases h2 : P.adi_pwr_SetClockDivider ADI_CLOCK_ID.ADI_CLOCK_HCLK 1 = P.ADI_PWR_SUCCESS
    · by_cases h3 : P.adi_pwr_SetClockDivider ADI_CLOCK_ID.ADI_CLOCK_PCLK 1 = P.ADI_PWR_SUCCESS
      · simp [h1, h2, h3]
      · have h3b : ¬ P.ADI_PWR_SUCCESS = P.adi_pwr_SetClockDivider ADI_CLOCK_ID.ADI_CLOCK_PCLK 1 :=
          fun h => h3 h.symm
        simp [h1, h2, h3, h3b]
    · have h2b : ¬ P.ADI_PWR_SUCCESS = P.adi_pwr_SetClockDivider ADI_CLOCK_ID.ADI_CLOCK_HCLK 1 :=
        fun h => h2 h.symm
      simp [h1, h2, h2b]
  · have h1b : ¬ P.ADI_PWR_SUCCESS = P.adi_pwr_Init := fun h => h1 h.symm
    simp [h1, h1b]

/-- Witness of the amended C5: a run in which the three power calls succeed
and a run in which `adi_pwr_Init` fails. -/
theorem initPower_gates_at_test_witness :
    (main power_ok =
       { outcome := Outcome.returned 0,
         events := [Event.adi_initComponents,
           Event.adi_pwr_Init power_ok.ADI_PWR_SUCCESS,
           Event.adi_pwr_SetClockDivider ADI_CLOCK_ID.ADI_CLOCK_HCLK 1 power_ok.ADI_PWR_SUCCESS,
           Event.adi_pwr_SetClockDivider ADI_CLOCK_ID.ADI_CLOCK_PCLK 1 power_ok.ADI_PWR_SUCCESS,
           Event.at_test] }) ∧
    (main power_init_fails =
       { outcome := Outcome.exited 1,
         events := [Event.adi_initComponents,
           Event.adi_pwr_Init power_init_fails.adi_pwr_Init,
           Event.printf "ERROR INITIALIZING POWER\n", Event.exit 1] }) :=
  ⟨((initPower_gates_at_test power_ok).1 rfl rfl rfl).2,
   ((initPower_gates_at_test power_init_fails).2.1 (by decide)).2⟩

/-! ## Further properties of irq.c -/

/-- In every build, `irq_register` on an `IRQ_PS` descriptor returns `FAILURE`
whatever `irq_id` is, also when it has connected the handler; on an `IRQ_PL`
descriptor in a build that includes `xintc.h` it issues the one call
`XIntc_Connect` and returns its status, leaving the descriptor unchanged; for
any other type, and for `IRQ_PL` without `xintc.h`, it returns `FAILURE`
without making a call. -/
theorem irq_register_status (B : Build) (desc : irq_ctrl_desc) (irq_id : Nat)
    (irq_handler : Handler) (context : Option Ptr) (config : xili_config)
    (dev_instance : Option Ptr) :
    (desc.extra.obj.type = xil_irq_type.IRQ_PS →
      (irq_register B desc irq_id irq_handler context config dev_instance).ret
        = B.FAILURE) ∧
    (desc.extra.obj.type = xil_irq_type.IRQ_PL →
      ∀ intc, B.XINTC_H = some intc →
        irq_register B desc irq_id irq_handler context config dev_instance =
          { ret := intc.XIntc_Connect desc.extra.obj.instance_ptr irq_id irq_handler
                     dev_instance,
            desc := desc,
            calls := [Call.XIntc_Connect desc.extra.obj.instance_ptr irq_id irq_handler
                        dev_instance
                        (intc.XIntc_Connect desc.extra.obj.instance_ptr irq_id irq_handler
                           dev_instance)] }) ∧
    (desc.extra.obj.type = xil_irq_type.IRQ_PL → B.XINTC_H.isSome = false →
      irq_register B desc irq_id irq_handler context config dev_instance =
        { ret := B.FAILURE, desc := desc, calls := [] }) ∧
    (desc.extra.obj.type ≠ xil_irq_type.IRQ_PS →
     desc.extra.obj.type ≠ xil_irq_type.IRQ_PL →
      irq_register B desc irq_id irq_handler context config dev_instance =
        { ret := B.FAILURE, desc := desc, calls := [] }) := by
  unfold irq_register
  cases h : desc.extra.obj.type <;> cases hg : B.XSCUGIC_H <;> cases hi : B.XINTC_H <;>
    simp [h, hg, hi] <;> split <;> rfl

/-- Witness of `irq_register_status`: on the programmable-logic build an
`IRQ_PL` registration returns the status of `XIntc_Connect`. -/
theorem irq_register_status_witness :
    irq_register pl_build (sample_desc xil_irq_type.IRQ_PL) 61 16384 (some 500)
        uart_config (some 700) =
      { ret := 0, desc := sample_desc xil_irq_type.IRQ_PL,
        calls := [Call.XIntc_Connect (some 3000) 61 16384 (some 700) 0] } :=
  (irq_register_status pl_build (sample_desc xil_irq_type.IRQ_PL) 61 16384 (some 500)
    uart_config (some 700)).2.1 rfl _ rfl

/-- When `irq_ctrl_init` fails it does not write `*desc` and it has released
every block `calloc` gave it; when it succeeds it has released nothing. -/
theorem irq_ctrl_init_releases_on_failure (B : Build) (hB : B.SUCCESS ≠ B.FAILURE)
    (heap : Allocator) (param : irq_init_param) :
    ((irq_ctrl_init B heap param).ret = B.FAILURE →
      (irq_ctrl_init B heap param).desc = none ∧
      ∀ n size p, Call.calloc n size (some p) ∈ (irq_ctrl_init B heap param).calls →
        Call.free p ∈ (irq_ctrl_init B heap param).calls) ∧
    ((irq_ctrl_init B heap param).ret = B.SUCCESS →
      ∀ p, Call.free p ∉ (irq_ctrl_init B heap param).calls) := by
  have hB2 : B.FAILURE ≠ B.SUCCESS := fun h => hB h.symm
  unfold irq_ctrl_init irq_ctrl_init.error
  rcases hd : heap.descriptor with _ | descriptor
  · simp [hB2]
  rcases hx : heap.xil_dev with _ | xil_dev
  · simp [hB2]
  rcases ht : param.extra.type with _ | _ | raw
  · rcases hg : B.XSCUGIC_H with _ | gic
    · simp [hB2]
      intros
      tauto
    rcases hi : heap.instance_ptr with _ | inst
    · simp [hB2]
      intros
      tauto
    rcases hl : gic.XScuGic_LookupConfig param.irq_ctrl_id with _ | config
    · simp [hB2, hl]
      intros
      tauto
    by_cases hs : gic.XScuGic_CfgInitialize inst config config.CpuBaseAddress = B.SUCCESS
    · simp [hB, hB2, hl, hs]
    · simp [hB2, hl, hs]
      intros
      tauto
  · rcases hg : B.XINTC_H with _ | intc
    · simp [hB2]
      intros
      tauto
    rcases hi : heap.instance_ptr with _ | inst
    · simp [hB2]
      intros
      tauto
    by_cases hs : intc.XIntc_Initialize inst 0 = B.SUCCESS
    · by_cases hs2 : intc.XIntc_Start inst intc.XIN_REAL_MODE = B.SUCCESS
      · simp [hB, hB2, hs, hs2]
      · simp [hB2, hs, hs2]
        intros
        tauto
    · simp [hB2, hs]
      intros
      tauto
  · simp [hB2]
    intros
    tauto

/-- Witness of `irq_ctrl_init_releases_on_failure`: on the processor-system
build controller `1` has no configuration, so initialisation fails after the
three allocations and each of the three blocks is released. -/
theorem irq_ctrl_init_releases_on_failure_witness :
    ps_build.SUCCESS ≠ ps_build.FAILURE ∧
    (irq_ctrl_init ps_build heap_ok
        { irq_ctrl_id := 1, extra := { type := xil_irq_type.IRQ_PS } }).desc = none ∧
    Call.free 3000 ∈ (irq_ctrl_init ps_build heap_ok
        { irq_ctrl_id := 1, extra := { type := xil_irq_type.IRQ_PS } }).calls :=
  ⟨by decide,
   ((irq_ctrl_init_releases_on_failure ps_build (by decide) heap_ok
      { irq_ctrl_id := 1, extra := { type := xil_irq_type.IRQ_PS } }).1 rfl).1,
   ((irq_ctrl_init_releases_on_failure ps_build (by decide) heap_ok
      { irq_ctrl_id := 1, extra := { type := xil_irq_type.IRQ_PS } }).1 rfl).2
      1 AllocObj.XScuGic 3000 (by decide)⟩

end NoOS
